import Mathlib

/-!
Verification of the PneumaticsApp piston-cycling controller and DAC calibration
pipeline.  The definitions below are a shallow embedding of the Python sources:
`i2c_driver.py` (pressure/voltage calibration and DAC writes), `app.py`
(the `PistonWorker` state machine, its background cycle loop, and the
request handlers `piston_update` / `piston_start`).  Python floats are
modelled as exact rationals, Python ints as `Int`.
-/

namespace Pneumatics

/-! ## Calibration constants (src/i2c_driver.py, lines 22-26) -/

def GP8403_MIN_VOLTAGE : ℚ := 0
def GP8403_MAX_VOLTAGE : ℚ := 10
def GP8403_MIN_PRESSURE : ℚ := 0
def GP8403_MAX_PRESSURE : ℚ := 130.534
def GP8403_MAX_CODE : ℤ := 0x0FFF

/-- `_clamp(value, minimum, maximum) = max(minimum, min(maximum, value))`
from `i2c_driver.py`. -/
def clamp (value minimum maximum : ℚ) : ℚ :=
  max minimum (min maximum value)

/-- Integer variant of `_clamp`, as applied to the rounded DAC code. -/
def clampZ (value minimum maximum : ℤ) : ℤ :=
  max minimum (min maximum value)

/-- `pressure_to_voltage` with the module-level calibration constants
`GP8403_MIN_PRESSURE` / `GP8403_MAX_PRESSURE` taken as parameters (the spec
requires the maximum to be a named, overridable constant and the function
reads the module globals at call time).  Python raises `ZeroDivisionError`
on float division by zero, modelled as `Except.error`. -/
def pressure_to_voltage_gen (pmin pmax : ℚ) (pressure_psi : ℚ) : Except String ℚ :=
  if pmax - pmin = 0 then
    Except.error "ZeroDivisionError"
  else
    Except.ok (GP8403_MIN_VOLTAGE +
      (clamp pressure_psi pmin pmax - pmin) / (pmax - pmin) *
        (GP8403_MAX_VOLTAGE - GP8403_MIN_VOLTAGE))

/-- `pressure_to_voltage` from `i2c_driver.py` with the shipped constants,
where the divisor `GP8403_MAX_PRESSURE - GP8403_MIN_PRESSURE` is nonzero. -/
def pressure_to_voltage (pressure_psi : ℚ) : ℚ :=
  GP8403_MIN_VOLTAGE +
    (clamp pressure_psi GP8403_MIN_PRESSURE GP8403_MAX_PRESSURE - GP8403_MIN_PRESSURE) /
      (GP8403_MAX_PRESSURE - GP8403_MIN_PRESSURE) *
      (GP8403_MAX_VOLTAGE - GP8403_MIN_VOLTAGE)

/-- Python's built-in `round` on a float: round half to even, returning an
integer (used by `voltage_to_code`). -/
def pyRound (q : ℚ) : ℤ :=
  if q - ⌊q⌋ < 1/2 then ⌊q⌋
  else if 1/2 < q - ⌊q⌋ then ⌊q⌋ + 1
  else if ⌊q⌋ % 2 = 0 then ⌊q⌋ else ⌊q⌋ + 1

/-- `voltage_to_code` from `i2c_driver.py`: clamp to the voltage range,
scale by `GP8403_MAX_CODE / (V_max - V_min)`, round, clamp to `[0, 0xFFF]`. -/
def voltage_to_code (voltage : ℚ) : ℤ :=
  clampZ
    (pyRound ((clamp voltage GP8403_MIN_VOLTAGE GP8403_MAX_VOLTAGE - GP8403_MIN_VOLTAGE) *
      ((GP8403_MAX_CODE : ℚ) / (GP8403_MAX_VOLTAGE - GP8403_MIN_VOLTAGE))))
    0 GP8403_MAX_CODE

/-! ## PistonWorker (src/app.py, class PistonWorker)

The worker owns `time_on`, `time_off`, `current_cycle`, `total_cycles`,
`running`, the two `threading.Event` flags, the thread handle (modelled as
the boolean `thread_alive` = "self.thread is not None and is_alive()") and
the digital-output level of its valve pin (the GPIO pin state, folded into
the worker record since each worker owns exactly one pin). -/

/-- Snapshot returned by `PistonWorker.status()`. -/
structure Status where
  running : Bool
  paused : Bool
  current_cycle : ℤ
  total_cycles : ℤ
  deriving DecidableEq, Repr

structure PistonWorker where
  time_on : ℚ
  time_off : ℚ
  current_cycle : ℤ
  total_cycles : ℤ
  running : Bool
  pause_evt : Bool
  stop_evt : Bool
  thread_alive : Bool
  output : Bool
  deriving DecidableEq, Repr

/-- `PistonWorker.start`: clears the events, stores the parameters, zeroes
`current_cycle`, and launches a new thread only when no live thread exists.
Returns the new worker state and whether a thread was launched.  The launch
is asynchronous, so `running` is not set by the call itself. -/
def PistonWorker.start (w : PistonWorker) (time_on time_off : ℚ) (cycles : ℤ) :
    PistonWorker × Bool :=
  let w1 := { w with stop_evt := false, pause_evt := false,
                     time_on := time_on, time_off := time_off,
                     total_cycles := cycles, current_cycle := 0 }
  if w.thread_alive then (w1, false)
  else ({ w1 with thread_alive := true }, true)

/-- `PistonWorker.pause`: sets the pause event. -/
def PistonWorker.pause (w : PistonWorker) : PistonWorker :=
  { w with pause_evt := true }

/-- `PistonWorker.resume`: clears the pause event. -/
def PistonWorker.resume (w : PistonWorker) : PistonWorker :=
  { w with pause_evt := false }

/-- `PistonWorker.reset`: sets the stop event, clears the pause event, joins
the thread with a 1 s timeout (`workerExited` records whether the thread
observably exited within the timeout), forces the output LOW unconditionally,
and zeroes the counters and the running flag. -/
def PistonWorker.reset (w : PistonWorker) (workerExited : Bool) : PistonWorker :=
  { w with stop_evt := true, pause_evt := false,
           thread_alive := w.thread_alive && !workerExited,
           output := false,
           current_cycle := 0, total_cycles := 0, running := false }

/-- `PistonWorker.update`: overwrite any subset of the live parameters. -/
def PistonWorker.update (w : PistonWorker) (time_on time_off : Option ℚ)
    (cycles : Option ℤ) : PistonWorker :=
  { w with time_on := time_on.getD w.time_on,
           time_off := time_off.getD w.time_off,
           total_cycles := cycles.getD w.total_cycles }

/-- `PistonWorker.status`: consistent snapshot of the four fields. -/
def PistonWorker.status (w : PistonWorker) : Status :=
  { running := w.running, paused := w.pause_evt,
    current_cycle := w.current_cycle, total_cycles := w.total_cycles }

/-! ## The background cycle loop (`PistonWorker._run`)

We model the loop's observable behaviour when it is not disturbed by a
concurrent mutator: the events read each iteration are the worker's current
flags, and `_sleep_checking` returns `not stop_evt`.  Each iteration emits the
hardware actions it performs. -/

/-- One observable hardware action of the loop: a digital-output write or a
timed wait. -/
inductive Event where
  | setOutput (level : Bool)
  | wait (seconds : ℚ)
  deriving DecidableEq, Repr

/-- The four actions of one ON/OFF pair: output HIGH, wait `time_on`,
output LOW, wait `time_off`. -/
def pairEvents (tOn tOff : ℚ) : List Event :=
  [Event.setOutput true, Event.wait tOn, Event.setOutput false, Event.wait tOff]

/-- The actions of `k` consecutive ON/OFF pairs. -/
def eventsN (k : ℕ) (tOn tOff : ℚ) : List Event :=
  (List.replicate k (pairEvents tOn tOff)).flatten

/-- The loop's end-of-test condition `0 < total_cycles <= current_cycle`. -/
def doneCond (total current : ℤ) : Bool :=
  decide (0 < total) && decide (total ≤ current)

/-- The `while` loop of `_run`, with fuel bounding the number of iteration
checks.  Returns `none` when the fuel runs out before the loop exits, and
`some (events, w)` when the loop exits (by the stop event or the done
condition) with the emitted hardware events and the state at exit. -/
def runAux : ℕ → PistonWorker → Option (List Event × PistonWorker)
  | 0, _ => none
  | fuel+1, w =>
    if w.stop_evt || doneCond w.total_cycles w.current_cycle then
      some ([], w)
    else
      (runAux fuel { w with output := false,
                            current_cycle := w.current_cycle + 1 }).map
        (fun r => (pairEvents w.time_on w.time_off ++ r.1, r.2))

/-- `_run` in full: set `running`, execute the loop, then the `finally`
block forces the output LOW and clears `running`. -/
def run (fuel : ℕ) (w : PistonWorker) : Option (List Event × PistonWorker) :=
  (runAux fuel { w with running := true }).map
    (fun r => (r.1 ++ [Event.setOutput false],
               { r.2 with output := false, running := false }))

/-! ## Request boundary (src/app.py, handlers piston_update / piston_start)

The handlers talk to the two workers, the persisted store and the DAC. -/

/-- Per-piston record held in the persisted store.
Modelled from the spec: `load_state` / `save_state` are imported from the
`db` module but are not defined in the inspected source; the spec describes
the Configuration Store as a per-piston durable record of CycleParameters,
CycleProgress and PressureSetting with an atomic load/save contract, whose
`desired_voltage` field is a recomputed cache. -/
structure StoreRecord where
  time_on : ℚ
  time_off : ℚ
  max_cycles : ℤ
  current_cycle : ℤ
  running : Bool
  paused : Bool
  desired_pressure : ℚ
  desired_voltage : Option ℚ
  deriving DecidableEq, Repr

/-- `_annotate_with_voltage` applied to one piston record: recompute the
`desired_voltage` cache from `desired_pressure`. -/
def annotate (recd : StoreRecord) : StoreRecord :=
  { recd with desired_voltage := some (pressure_to_voltage recd.desired_pressure) }

/-- Whole-process state visible to the request handlers: the two registered
workers, the persisted store's two records, and the last 12-bit code written
to each DAC channel. -/
structure Sys where
  worker1 : PistonWorker
  worker2 : PistonWorker
  store1 : StoreRecord
  store2 : StoreRecord
  dacCh1 : Option ℤ
  dacCh2 : Option ℤ
  deriving DecidableEq, Repr

/-- `workers[piston]` (only used after the membership check). -/
def Sys.workerOf (s : Sys) (piston : String) : PistonWorker :=
  if piston = "piston1" then s.worker1 else s.worker2

def Sys.setWorkerOf (s : Sys) (piston : String) (w : PistonWorker) : Sys :=
  if piston = "piston1" then { s with worker1 := w } else { s with worker2 := w }

/-- `load_state()[piston]`. -/
def Sys.storeOf (s : Sys) (piston : String) : StoreRecord :=
  if piston = "piston1" then s.store1 else s.store2

/-- `save_state(_annotate_with_voltage(state))` where `state` is the loaded
dict with the given piston's record replaced: both records are annotated and
persisted. -/
def Sys.saveAnnotated (s : Sys) (piston : String) (recd : StoreRecord) : Sys :=
  if piston = "piston1" then
    { s with store1 := annotate recd, store2 := annotate s.store2 }
  else
    { s with store2 := annotate recd, store1 := annotate s.store1 }

/-- `set_pressure(channel, value)`: the DAC write performed by
`_apply_desired_pressure`, recording the 12-bit code written to the
channel mapped to the piston. -/
def Sys.writeDac (s : Sys) (piston : String) (code : ℤ) : Sys :=
  if piston = "piston1" then { s with dacCh1 := some code }
  else { s with dacCh2 := some code }

/-- HTTP-level outcome of a handler: a success payload (worker status plus
the persisted desired_voltage) or an error status code with its message. -/
inductive Resp where
  | ok (st : Status) (desired_voltage : Option ℚ)
  | err (code : ℕ) (msg : String)
  deriving DecidableEq, Repr

/-- Whether a handler outcome is a rejection (a non-2xx JSON error). -/
def Resp.isErr : Resp → Bool
  | .ok .. => false
  | .err .. => true

/-- Request body of `/api/piston/update`.  A `desired_pressure` of
`some none` models a JSON value present in the request on which Python's
`float()` raises (non-numeric). -/
structure UpdateReq where
  piston : String
  time_on : Option ℚ
  time_off : Option ℚ
  cycles : Option ℤ
  desired_pressure : Option (Option ℚ)
  deriving DecidableEq, Repr

/-- Request body of `/api/piston/start` (absent timing fields default to 0
via `data.get(..., 0)`). -/
structure StartReq where
  piston : String
  time_on : ℚ
  time_off : ℚ
  cycles : ℤ
  desired_pressure : Option (Option ℚ)
  deriving DecidableEq, Repr

/-- The negative-time filter  `[v for v in [t_on, t_off] if v is not None and v < 0]`. -/
def negTime : Option ℚ → Bool
  | some v => decide (v < 0)
  | none => false

/-- `cyc is not None and cyc <= 0`. -/
def badCycles : Option ℤ → Bool
  | some c => decide (c ≤ 0)
  | none => false

/-- Tail of `piston_update`: mirror the runtime flags into the loaded record,
annotate, persist, and answer with the worker status plus the persisted
voltage. -/
def finishUpdate (s : Sys) (piston : String) (recd : StoreRecord) : Resp × Sys :=
  let st := (s.workerOf piston).status
  let recd1 := { recd with running := st.running, paused := st.paused,
                           current_cycle := st.current_cycle }
  let s1 := s.saveAnnotated piston recd1
  (Resp.ok st (s1.storeOf piston).desired_voltage, s1)

/-- Handler `piston_update` (`/api/piston/update`).  Note the order of
operations, taken from the source: the membership, time and cycle checks come
first, then `workers[piston].update(...)` mutates the live worker, and only
afterwards is `desired_pressure` validated. -/
def pistonUpdate (s : Sys) (r : UpdateReq) : Resp × Sys :=
  if ¬ (r.piston = "piston1" ∨ r.piston = "piston2") then
    (Resp.err 400 "Unknown piston", s)
  else if negTime r.time_on || negTime r.time_off then
    (Resp.err 400 "Time values must be >= 0", s)
  else if badCycles r.cycles then
    (Resp.err 400 "Cycles must be > 0", s)
  else
    let s1 := s.setWorkerOf r.piston
      ((s.workerOf r.piston).update r.time_on r.time_off r.cycles)
    let rec0 := s1.storeOf r.piston
    let rec1 := { rec0 with time_on := r.time_on.getD rec0.time_on,
                            time_off := r.time_off.getD rec0.time_off,
                            max_cycles := r.cycles.getD rec0.max_cycles }
    match r.desired_pressure with
    | none => finishUpdate s1 r.piston rec1
    | some none => (Resp.err 400 "Desired pressure must be a number", s1)
    | some (some p) =>
      if ¬ (0 ≤ p ∧ p ≤ 130) then
        (Resp.err 400 "Desired pressure must be between 0 and 130 psi", s1)
      else
        let s2 := s1.writeDac r.piston (voltage_to_code (pressure_to_voltage p))
        let rec2 := { rec1 with desired_pressure := p,
                                desired_voltage := some (pressure_to_voltage p) }
        finishUpdate s2 r.piston rec2

/-- Tail of `piston_start`: persist the prepared record (annotating both
pistons) and answer with the worker status plus the persisted voltage. -/
def finishStart (s : Sys) (piston : String) (recd : StoreRecord) : Resp × Sys :=
  let s1 := s.saveAnnotated piston recd
  (Resp.ok (s.workerOf piston).status (s1.storeOf piston).desired_voltage, s1)

/-- Handler `piston_start` (`/api/piston/start`).  As in the source, the
membership and parameter checks come first, then `workers[piston].start(...)`
runs, and only afterwards is `desired_pressure` validated. -/
def pistonStart (s : Sys) (r : StartReq) : Resp × Sys :=
  if ¬ (r.piston = "piston1" ∨ r.piston = "piston2") then
    (Resp.err 400 "Unknown piston", s)
  else if r.time_on < 0 ∨ r.time_off < 0 ∨ r.cycles ≤ 0 then
    (Resp.err 400 "Invalid parameters", s)
  else
    let s1 := s.setWorkerOf r.piston
      (((s.workerOf r.piston).start r.time_on r.time_off r.cycles).1)
    let rec0 := s1.storeOf r.piston
    let rec1 := { rec0 with time_on := r.time_on, time_off := r.time_off,
                            max_cycles := r.cycles, current_cycle := 0,
                            running := true, paused := false }
    match r.desired_pressure with
    | none => finishStart s1 r.piston rec1
    | some none => (Resp.err 400 "Desired pressure must be a number", s1)
    | some (some p) =>
      if ¬ (0 ≤ p ∧ p ≤ 130) then
        (Resp.err 400 "Desired pressure must be between 0 and 130 psi", s1)
      else
        let s2 := s1.writeDac r.piston (voltage_to_code (pressure_to_voltage p))
        let rec2 := { rec1 with desired_pressure := p,
                                desired_voltage := some (pressure_to_voltage p) }
        finishStart s2 r.piston rec2

/-! ## Concrete states used to exercise the handlers -/

/-- An idle worker with `time_on = time_off = 1`. -/
def idleWorker : PistonWorker := ⟨1, 1, 0, 0, false, false, false, false, false⟩

/-- A persisted record as seeded by the store. -/
def seedRecord : StoreRecord := ⟨1, 1, 10, 0, false, false, 75, none⟩

/-- A whole-process state with both pistons idle and no DAC write yet. -/
def seedSys : Sys := ⟨idleWorker, idleWorker, seedRecord, seedRecord, none, none⟩

/-- An update request carrying a new `time_on` together with an out-of-range
desired pressure. -/
def badPressureReq : UpdateReq := ⟨"piston1", some 5, none, none, some (some 200)⟩

/-! ## Theorems about the PistonWorker state machine -/

/-- C1: for every piston worker state and every parameter configuration,
after `reset()` returns the digital output is LOW, `status()` reports
`running = false` and `paused = false`, and both `current_cycle` and
`total_cycles` equal 0. -/
theorem reset_forces_off_and_zeroes (w : PistonWorker) (workerExited : Bool) :
    (w.reset workerExited).output = false ∧
    (w.reset workerExited).status.running = false ∧
    (w.reset workerExited).status.paused = false ∧
    (w.reset workerExited).current_cycle = 0 ∧
    (w.reset workerExited).total_cycles = 0 :=
  ⟨rfl, rfl, rfl, rfl, rfl⟩

/-- C2 counterexample: calling `start` while the background thread is alive
DOES reset `current_cycle` (the source zeroes it unconditionally, before the
`is_alive` check), so the claim "the completed-cycle count is not reset by
that call" is false.  Concrete input: a worker with `thread_alive = true` and
`current_cycle = 5`; after `start(2, 3, 20)` the count is 0. -/
theorem start_while_alive_resets_progress :
    ((⟨1, 1, 5, 10, true, false, false, true, true⟩ : PistonWorker).current_cycle = 5) ∧
    ((⟨1, 1, 5, 10, true, false, false, true, true⟩ : PistonWorker).thread_alive = true) ∧
    (((⟨1, 1, 5, 10, true, false, false, true, true⟩ : PistonWorker).start 2 3 20).1.current_cycle
      = 0) := by
  decide

/-- C2 (amended): if `start` is called while the background execution is
alive, no second worker is launched and the new parameters are accepted and
stored, but `current_cycle` IS reset to 0 by that call. -/
theorem start_while_alive_no_second_worker (w : PistonWorker) (tOn tOff : ℚ) (cyc : ℤ)
    (h : w.thread_alive = true) :
    (w.start tOn tOff cyc).2 = false ∧
    (w.start tOn tOff cyc).1.thread_alive = w.thread_alive ∧
    (w.start tOn tOff cyc).1.time_on = tOn ∧
    (w.start tOn tOff cyc).1.time_off = tOff ∧
    (w.start tOn tOff cyc).1.total_cycles = cyc ∧
    (w.start tOn tOff cyc).1.current_cycle = 0 := by
  unfold PistonWorker.start
  rw [h]
  exact ⟨rfl, rfl, rfl, rfl, rfl, rfl⟩

/-- Witness for the amended C2 theorem at a concrete alive worker. -/
theorem start_while_alive_no_second_worker_witness :
    (((⟨1, 1, 5, 10, true, false, false, true, true⟩ : PistonWorker).start 2 3 20).2 = false) ∧
    (((⟨1, 1, 5, 10, true, false, false, true, true⟩ : PistonWorker).start 2 3 20).1.thread_alive
      = (⟨1, 1, 5, 10, true, false, false, true, true⟩ : PistonWorker).thread_alive) ∧
    (((⟨1, 1, 5, 10, true, false, false, true, true⟩ : PistonWorker).start 2 3 20).1.time_on = 2) ∧
    (((⟨1, 1, 5, 10, true, false, false, true, true⟩ : PistonWorker).start 2 3 20).1.time_off = 3) ∧
    (((⟨1, 1, 5, 10, true, false, false, true, true⟩ : PistonWorker).start 2 3 20).1.total_cycles
      = 20) ∧
    (((⟨1, 1, 5, 10, true, false, false, true, true⟩ : PistonWorker).start 2 3 20).1.current_cycle
      = 0) :=
  start_while_alive_no_second_worker ⟨1, 1, 5, 10, true, false, false, true, true⟩ 2 3 20 rfl

/-- The unbounded loop never exits on its own: with `total_cycles = 0` and the
stop event clear, no amount of fuel makes the loop terminate. -/
theorem runAux_unbounded_none : ∀ (fuel : ℕ) (w : PistonWorker),
    w.total_cycles = 0 → w.stop_evt = false → runAux fuel w = none := by
  intro fuel
  induction fuel with
  | zero => intro w _ _; rfl
  | succ f ih =>
    intro w h0 hs
    unfold runAux
    rw [hs, h0]
    have hdone : doneCond 0 w.current_cycle = false := by simp [doneCond]
    rw [hdone]
    simp only [Bool.or_self, Bool.false_eq_true, if_false]
    rw [ih _ rfl rfl]
    rfl

/-- C5: with `target_cycles = 0` the done-condition never holds and the cycle
loop never terminates of its own accord (no fuel bound makes it exit while
the stop event is clear); as soon as the stop signal is set the loop exits at
its next check. -/
theorem unbounded_run_never_halts (fuel : ℕ) (w : PistonWorker) (c : ℤ)
    (h0 : w.total_cycles = 0) (hs : w.stop_evt = false) :
    doneCond 0 c = false ∧
    runAux fuel w = none ∧
    runAux (fuel+1) { w with stop_evt := true } = some ([], { w with stop_evt := true }) := by
  refine ⟨by simp [doneCond], runAux_unbounded_none fuel w h0 hs, ?_⟩
  unfold runAux
  simp

/-- Witness for C5 at a concrete worker with `total_cycles = 0`. -/
theorem unbounded_run_never_halts_witness :
    doneCond 0 7 = false ∧
    runAux 5 (⟨1, 1, 3, 0, true, false, false, true, false⟩ : PistonWorker) = none ∧
    runAux 6 {(⟨1, 1, 3, 0, true, false, false, true, false⟩ : PistonWorker) with
        stop_evt := true} =
      some ([], {(⟨1, 1, 3, 0, true, false, false, true, false⟩ : PistonWorker) with
        stop_evt := true}) :=
  unbounded_run_never_halts 5 ⟨1, 1, 3, 0, true, false, false, true, false⟩ 7 rfl rfl

/-- C6: if `update` sets `target_cycles` to a positive value at most the
current `current_cycle` while the loop is live, the loop exits at its next
iteration check emitting no further ON/OFF events. -/
theorem shrink_below_progress_halts (w : PistonWorker) (T : ℤ) (fuel : ℕ)
    (hT : 0 < T) (hle : T ≤ w.current_cycle) :
    runAux (fuel+1) (w.update none none (some T)) =
      some ([], w.update none none (some T)) := by
  unfold runAux PistonWorker.update
  have hdone : doneCond T w.current_cycle = true := by
    simp [doneCond, hT, hle]
  simp only [Option.getD_none, Option.getD_some]
  rw [hdone]
  simp

/-- Witness for C6 at a concrete live worker (`current_cycle = 5`, target
shrunk to 2). -/
theorem shrink_below_progress_halts_witness :
    runAux 8 ((⟨1, 2, 5, 100, true, false, false, true, true⟩ : PistonWorker).update
        none none (some 2)) =
      some ([], (⟨1, 2, 5, 100, true, false, false, true, true⟩ : PistonWorker).update
        none none (some 2)) :=
  shrink_below_progress_halts ⟨1, 2, 5, 100, true, false, false, true, true⟩ 2 7
    (by decide) (by decide)

/-- C10: `pause()` and `resume()` modify only the pause flag: the timing
parameters, the counters, the running flag and the output level are
untouched, and afterwards `status().paused` is true exactly after a `pause`
not followed by a `resume` or `reset`. -/
theorem pause_resume_only_touch_pause_flag (w : PistonWorker) (workerExited : Bool) :
    w.pause.time_on = w.time_on ∧ w.pause.time_off = w.time_off ∧
    w.pause.total_cycles = w.total_cycles ∧ w.pause.current_cycle = w.current_cycle ∧
    w.pause.running = w.running ∧ w.pause.output = w.output ∧
    w.resume.time_on = w.time_on ∧ w.resume.time_off = w.time_off ∧
    w.resume.total_cycles = w.total_cycles ∧ w.resume.current_cycle = w.current_cycle ∧
    w.resume.running = w.running ∧ w.resume.output = w.output ∧
    w.pause.status.paused = true ∧
    w.pause.resume.status.paused = false ∧
    (w.pause.reset workerExited).status.paused = false ∧
    w.resume.status.paused = false :=
  ⟨rfl, rfl, rfl, rfl, rfl, rfl, rfl, rfl, rfl, rfl, rfl, rfl, rfl, rfl, rfl, rfl⟩

/-- With the stop event clear and `current_cycle + k = total_cycles > 0`, the
loop performs exactly `k` further ON/OFF pairs and exits with
`current_cycle = total_cycles`.  (The output level at exit is existential:
for `k = 0` the loop exits before touching the pin.) -/
theorem runAux_completes : ∀ (k : ℕ) (w : PistonWorker),
    w.stop_evt = false → 0 < w.total_cycles →
    w.current_cycle + (k : ℤ) = w.total_cycles →
    ∃ b : Bool, runAux (k+1) w =
      some (eventsN k w.time_on w.time_off,
        { w with output := b, current_cycle := w.total_cycles }) := by
  intro k
  induction k with
  | zero =>
    intro w hs hpos hk
    refine ⟨w.output, ?_⟩
    unfold runAux
    have hcond : (w.stop_evt || doneCond w.total_cycles w.current_cycle) = true := by
      rw [hs]
      simp only [Bool.false_or, doneCond, Bool.and_eq_true, decide_eq_true_eq]
      omega
    rw [hcond]
    simp only [if_true, eventsN, List.replicate_zero, List.flatten_nil]
    refine congrArg some (Prod.ext rfl ?_)
    cases w
    dsimp only at hk ⊢
    simp only [PistonWorker.mk.injEq, and_self, and_true, true_and]
    omega
  | succ k ih =>
    intro w hs hpos hk
    have hcond : (w.stop_evt || doneCond w.total_cycles w.current_cycle) = false := by
      rw [hs]
      simp only [Bool.false_or, doneCond, Bool.and_eq_false_iff, decide_eq_false_iff_not]
      right
      omega
    obtain ⟨b, hb⟩ := ih { w with output := false, current_cycle := w.current_cycle + 1 }
      hs hpos (by dsimp only; push_cast at hk ⊢; omega)
    refine ⟨b, ?_⟩
    unfold runAux
    rw [hcond]
    simp only [Bool.false_eq_true, if_false]
    rw [hb]
    simp only [Option.map_some]
    refine congrArg some (Prod.ext ?_ rfl)
    dsimp only
    simp only [eventsN, List.replicate_succ, List.flatten_cons]

/-- C4: a run started fresh (stop clear, `current_cycle = 0`) with
`total_cycles = N > 0` performs exactly `N` ON/OFF pairs — each pair sets the
output HIGH, waits `time_on`, sets it LOW, waits `time_off` — then halts
automatically with `running = false`, the output forced LOW, and
`current_cycle = N`. -/
theorem fresh_run_exactly_N_pairs (N : ℕ) (w : PistonWorker)
    (hN : 0 < N) (hs : w.stop_evt = false) (hc : w.current_cycle = 0)
    (ht : w.total_cycles = (N : ℤ)) :
    run (N+1) w =
      some (eventsN N w.time_on w.time_off ++ [Event.setOutput false],
        { w with running := false, output := false, current_cycle := (N : ℤ) }) := by
  obtain ⟨b, hb⟩ := runAux_completes N { w with running := true }
    hs (by dsimp only; omega) (by dsimp only; omega)
  unfold run
  rw [hb]
  simp only [Option.map_some]
  refine congrArg some (Prod.ext rfl ?_)
  cases w
  dsimp only at ht ⊢
  simp_all

/-- Witness for C4: a fresh worker with `total_cycles = 2` runs exactly two
ON/OFF pairs and halts. -/
theorem fresh_run_exactly_N_pairs_witness :
    run 3 (⟨1, 2, 0, 2, false, false, false, true, false⟩ : PistonWorker) =
      some (eventsN 2 1 2 ++ [Event.setOutput false],
        ⟨1, 2, 2, 2, false, false, false, true, false⟩) := by
  have h := fresh_run_exactly_N_pairs 2 ⟨1, 2, 0, 2, false, false, false, true, false⟩
    (by decide) rfl rfl rfl
  exact h

/-! ## Theorems about the calibration pipeline -/

theorem clamp_of_mem {v lo hi : ℚ} (h1 : lo ≤ v) (h2 : v ≤ hi) : clamp v lo hi = v := by
  unfold clamp
  rw [min_eq_right h2, max_eq_right h1]

theorem clamp_of_le_lo {v lo hi : ℚ} (h1 : v ≤ lo) (h2 : lo ≤ hi) : clamp v lo hi = lo := by
  unfold clamp
  rw [min_eq_right (le_trans h1 h2), max_eq_left h1]

theorem clamp_of_hi_le {v lo hi : ℚ} (h1 : hi ≤ v) (h2 : lo ≤ hi) : clamp v lo hi = hi := by
  unfold clamp
  rw [min_eq_left h1, max_eq_right h2]

theorem clamp_mono {a b lo hi : ℚ} (h : a ≤ b) : clamp a lo hi ≤ clamp b lo hi := by
  unfold clamp
  exact max_le_max le_rfl (min_le_min le_rfl h)

theorem clampZ_mono {a b lo hi : ℤ} (h : a ≤ b) : clampZ a lo hi ≤ clampZ b lo hi := by
  unfold clampZ
  exact max_le_max le_rfl (min_le_min le_rfl h)

theorem floor_le_pyRound (q : ℚ) : ⌊q⌋ ≤ pyRound q := by
  unfold pyRound
  split_ifs <;> omega

theorem pyRound_le_floor_add_one (q : ℚ) : pyRound q ≤ ⌊q⌋ + 1 := by
  unfold pyRound
  split_ifs <;> omega

theorem pyRound_mono {a b : ℚ} (h : a ≤ b) : pyRound a ≤ pyRound b := by
  have hf : ⌊a⌋ ≤ ⌊b⌋ := Int.floor_le_floor h
  rcases lt_or_eq_of_le hf with hlt | heq
  · have h1 := pyRound_le_floor_add_one a
    have h2 := floor_le_pyRound b
    omega
  · have hsub : a - ((⌊b⌋ : ℤ) : ℚ) ≤ b - ((⌊b⌋ : ℤ) : ℚ) := by linarith
    unfold pyRound
    rw [heq]
    split_ifs <;> first | omega | (exfalso; linarith)

theorem pyRound_intCast (n : ℤ) : pyRound ((n : ℚ)) = n := by
  unfold pyRound
  rw [Int.floor_intCast, sub_self]
  rw [if_pos (by norm_num : (0:ℚ) < 1/2)]

/-- C7 counterexample: `pressure_to_voltage` has no degenerate-span guard.
With the calibration constants overridden to `P_min = P_max = 5`, the input 7
makes the function raise `ZeroDivisionError` instead of returning `V_min`. -/
theorem degenerate_span_raises :
    pressure_to_voltage_gen 5 5 7 = Except.error "ZeroDivisionError" ∧
    pressure_to_voltage_gen 5 5 7 ≠ Except.ok GP8403_MIN_VOLTAGE := by
  have h : pressure_to_voltage_gen 5 5 7 = Except.error "ZeroDivisionError" := by
    unfold pressure_to_voltage_gen
    rw [if_pos (by norm_num : (5:ℚ) - 5 = 0)]
  refine ⟨h, ?_⟩
  rw [h]
  exact fun hx => Except.noConfusion hx

/-- C7 (amended): the code has no `P_max == P_min` branch — in that
configuration it raises a division-by-zero error — but with the shipped
constants (`P_min = 0`, `P_max = 130.534`) the span is nonzero, so
`pressure_to_voltage` is total and never raises on any input. -/
theorem pressure_to_voltage_total_on_shipped_config (p : ℚ) :
    pressure_to_voltage_gen GP8403_MIN_PRESSURE GP8403_MAX_PRESSURE p =
      Except.ok (pressure_to_voltage p) := by
  unfold pressure_to_voltage_gen pressure_to_voltage
  rw [if_neg (by norm_num [GP8403_MIN_PRESSURE, GP8403_MAX_PRESSURE] :
    ¬ (GP8403_MAX_PRESSURE - GP8403_MIN_PRESSURE = 0))]

/-- C8: `pressure_to_voltage 0 = 0`, `pressure_to_voltage P_max = 10`,
inputs above `P_max` clamp to 10, inputs below 0 clamp to 0, and inputs
inside `[P_min, P_max]` map by linear interpolation into `[V_min, V_max]`. -/
theorem pressure_to_voltage_boundary (p : ℚ) :
    pressure_to_voltage 0 = 0 ∧
    pressure_to_voltage GP8403_MAX_PRESSURE = 10 ∧
    (GP8403_MAX_PRESSURE < p → pressure_to_voltage p = 10) ∧
    (p < 0 → pressure_to_voltage p = 0) ∧
    (GP8403_MIN_PRESSURE ≤ p → p ≤ GP8403_MAX_PRESSURE →
      pressure_to_voltage p = GP8403_MIN_VOLTAGE +
        (p - GP8403_MIN_PRESSURE) / (GP8403_MAX_PRESSURE - GP8403_MIN_PRESSURE) *
          (GP8403_MAX_VOLTAGE - GP8403_MIN_VOLTAGE)) := by
  have h0M : (GP8403_MIN_PRESSURE : ℚ) ≤ GP8403_MAX_PRESSURE := by
    norm_num [GP8403_MIN_PRESSURE, GP8403_MAX_PRESSURE]
  have hMne : GP8403_MAX_PRESSURE - GP8403_MIN_PRESSURE ≠ 0 := by
    norm_num [GP8403_MIN_PRESSURE, GP8403_MAX_PRESSURE]
  refine ⟨?_, ?_, ?_, ?_, ?_⟩
  · unfold pressure_to_voltage
    rw [clamp_of_mem (by norm_num [GP8403_MIN_PRESSURE])
      (by norm_num [GP8403_MIN_PRESSURE, GP8403_MAX_PRESSURE])]
    simp [GP8403_MIN_PRESSURE, GP8403_MIN_VOLTAGE]
  · unfold pressure_to_voltage
    rw [clamp_of_mem h0M le_rfl, div_self hMne]
    norm_num [GP8403_MIN_VOLTAGE, GP8403_MAX_VOLTAGE]
  · intro hp
    unfold pressure_to_voltage
    rw [clamp_of_hi_le (le_of_lt hp) h0M, div_self hMne]
    norm_num [GP8403_MIN_VOLTAGE, GP8403_MAX_VOLTAGE]
  · intro hp
    unfold pressure_to_voltage
    rw [clamp_of_le_lo (show p ≤ GP8403_MIN_PRESSURE from le_of_lt hp) h0M]
    simp [GP8403_MIN_VOLTAGE]
  · intro h1 h2
    unfold pressure_to_voltage
    rw [clamp_of_mem h1 h2]

/-- Witness for C8: an input above the span clamps to 10 V, an input below 0
clamps to 0 V, and an in-range input interpolates linearly. -/
theorem pressure_to_voltage_boundary_witness :
    pressure_to_voltage 200 = 10 ∧ pressure_to_voltage (-1) = 0 ∧
    pressure_to_voltage 50 = GP8403_MIN_VOLTAGE +
      (50 - GP8403_MIN_PRESSURE) / (GP8403_MAX_PRESSURE - GP8403_MIN_PRESSURE) *
        (GP8403_MAX_VOLTAGE - GP8403_MIN_VOLTAGE) :=
  ⟨(pressure_to_voltage_boundary 200).2.2.1 (by norm_num [GP8403_MAX_PRESSURE]),
   (pressure_to_voltage_boundary (-1)).2.2.2.1 (by norm_num),
   (pressure_to_voltage_boundary 50).2.2.2.2 (by norm_num [GP8403_MIN_PRESSURE])
     (by norm_num [GP8403_MIN_PRESSURE, GP8403_MAX_PRESSURE])⟩

/-- C9: `voltage_to_code 0 = 0`, `voltage_to_code 10 = 4095`, the map is
monotone non-decreasing, and every result (for any input) lies in
`[0, GP8403_MAX_CODE]`. -/
theorem voltage_to_code_quantization (a b v : ℚ) (hab : a ≤ b) :
    voltage_to_code 0 = 0 ∧
    voltage_to_code 10 = 4095 ∧
    voltage_to_code a ≤ voltage_to_code b ∧
    0 ≤ voltage_to_code v ∧ voltage_to_code v ≤ GP8403_MAX_CODE := by
  refine ⟨?_, ?_, ?_, ?_, ?_⟩
  · unfold voltage_to_code
    rw [clamp_of_mem (by norm_num [GP8403_MIN_VOLTAGE])
      (by norm_num [GP8403_MIN_VOLTAGE, GP8403_MAX_VOLTAGE])]
    rw [show (0 - GP8403_MIN_VOLTAGE) *
        ((GP8403_MAX_CODE : ℚ) / (GP8403_MAX_VOLTAGE - GP8403_MIN_VOLTAGE)) = ((0 : ℤ) : ℚ) by
      norm_num [GP8403_MIN_VOLTAGE]]
    rw [pyRound_intCast]
    decide
  · unfold voltage_to_code
    rw [clamp_of_mem
      (show GP8403_MIN_VOLTAGE ≤ 10 by norm_num [GP8403_MIN_VOLTAGE])
      (show (10:ℚ) ≤ GP8403_MAX_VOLTAGE by norm_num [GP8403_MAX_VOLTAGE])]
    rw [show ((10:ℚ) - GP8403_MIN_VOLTAGE) *
        ((GP8403_MAX_CODE : ℚ) / (GP8403_MAX_VOLTAGE - GP8403_MIN_VOLTAGE)) = ((4095 : ℤ) : ℚ) by
      norm_num [GP8403_MIN_VOLTAGE, GP8403_MAX_VOLTAGE, GP8403_MAX_CODE]]
    rw [pyRound_intCast]
    decide
  · unfold voltage_to_code
    apply clampZ_mono
    apply pyRound_mono
    apply mul_le_mul_of_nonneg_right
    · exact sub_le_sub_right (clamp_mono hab) _
    · norm_num [GP8403_MAX_CODE, GP8403_MAX_VOLTAGE, GP8403_MIN_VOLTAGE]
  · unfold voltage_to_code clampZ
    exact le_max_left _ _
  · unfold voltage_to_code clampZ
    exact max_le (by decide) (min_le_left _ _)

/-- Witness for C9 at concrete voltages 1 ≤ 2 and 7. -/
theorem voltage_to_code_quantization_witness :
    voltage_to_code 0 = 0 ∧
    voltage_to_code 10 = 4095 ∧
    voltage_to_code 1 ≤ voltage_to_code 2 ∧
    0 ≤ voltage_to_code 7 ∧ voltage_to_code 7 ≤ GP8403_MAX_CODE :=
  voltage_to_code_quantization 1 2 7 (by decide)

/-! ## Theorems about the request boundary -/

theorem setWorkerOf_shared (s : Sys) (p : String) (w : PistonWorker) :
    (s.setWorkerOf p w).store1 = s.store1 ∧ (s.setWorkerOf p w).store2 = s.store2 ∧
    (s.setWorkerOf p w).dacCh1 = s.dacCh1 ∧ (s.setWorkerOf p w).dacCh2 = s.dacCh2 := by
  unfold Sys.setWorkerOf
  split_ifs <;> exact ⟨rfl, rfl, rfl, rfl⟩

theorem finishUpdate_not_err (s : Sys) (p : String) (recd : StoreRecord) :
    ((finishUpdate s p recd).1).isErr = false := rfl

theorem finishStart_not_err (s : Sys) (p : String) (recd : StoreRecord) :
    ((finishStart s p recd).1).isErr = false := rfl

/-- C3 counterexample: a request that is rejected with the out-of-range
pressure validation error has nevertheless already mutated the controller:
`workers[piston].update(...)` runs before `desired_pressure` is validated, so
the rejected request leaves `time_on = 5` where it was 1 before. -/
theorem validation_rejection_mutates_worker :
    (pistonUpdate seedSys badPressureReq).1 =
      Resp.err 400 "Desired pressure must be between 0 and 130 psi" ∧
    (pistonUpdate seedSys badPressureReq).2.worker1.time_on = 5 ∧
    seedSys.worker1.time_on = 1 := by
  decide

/-- C3 (amended): requests rejected for an unknown piston id, a negative time
value or a non-positive cycle count mutate no state at all; every rejected
request (including the desired-pressure rejections) leaves the persisted
store and the DAC output unchanged — but a desired-pressure rejection may
already have mutated the live controller, because the worker update/start
happens before the pressure is validated. -/
theorem rejected_requests_leave_store_and_dac (s : Sys) (ru : UpdateReq) (rs : StartReq) :
    ((pistonUpdate s ru).1.isErr = true →
      (pistonUpdate s ru).2.store1 = s.store1 ∧ (pistonUpdate s ru).2.store2 = s.store2 ∧
      (pistonUpdate s ru).2.dacCh1 = s.dacCh1 ∧ (pistonUpdate s ru).2.dacCh2 = s.dacCh2) ∧
    (¬ (ru.piston = "piston1" ∨ ru.piston = "piston2") ∨ negTime ru.time_on = true ∨
        negTime ru.time_off = true ∨ badCycles ru.cycles = true →
      (pistonUpdate s ru).2 = s) ∧
    ((pistonStart s rs).1.isErr = true →
      (pistonStart s rs).2.store1 = s.store1 ∧ (pistonStart s rs).2.store2 = s.store2 ∧
      (pistonStart s rs).2.dacCh1 = s.dacCh1 ∧ (pistonStart s rs).2.dacCh2 = s.dacCh2) ∧
    (¬ (rs.piston = "piston1" ∨ rs.piston = "piston2") ∨ rs.time_on < 0 ∨ rs.time_off < 0 ∨
        rs.cycles ≤ 0 →
      (pistonStart s rs).2 = s) := by
  refine ⟨?_, ?_, ?_, ?_⟩
  · intro h
    unfold pistonUpdate at h ⊢
    rcases hdp : ru.desired_pressure with _ | ⟨_ | p⟩ <;>
      split_ifs at h ⊢ with h1 h2 h3 <;>
      (try rw [hdp] at h) <;>
      (try dsimp only at h ⊢) <;>
      first
        | exact ⟨rfl, rfl, rfl, rfl⟩
        | exact setWorkerOf_shared s ru.piston _
        | (rw [finishUpdate_not_err] at h; exact Bool.noConfusion h)
        | (split_ifs at h ⊢ with h4 <;>
            first
              | exact setWorkerOf_shared s ru.piston _
              | (rw [finishUpdate_not_err] at h; exact Bool.noConfusion h))
  · intro hearly
    unfold pistonUpdate
    by_cases hvp : (ru.piston = "piston1" ∨ ru.piston = "piston2")
    · rw [if_neg (not_not_intro hvp)]
      by_cases hn : (negTime ru.time_on || negTime ru.time_off) = true
      · rw [if_pos hn]
      · rw [if_neg hn]
        have hb : badCycles ru.cycles = true := by
          rcases hearly with h | h | h | h
          · exact absurd hvp h
          · exact absurd (Bool.or_eq_true _ _ |>.mpr (Or.inl h)) hn
          · exact absurd (Bool.or_eq_true _ _ |>.mpr (Or.inr h)) hn
          · exact h
        rw [if_pos hb]
    · rw [if_pos hvp]
  · intro h
    unfold pistonStart at h ⊢
    rcases hdp : rs.desired_pressure with _ | ⟨_ | p⟩ <;>
      split_ifs at h ⊢ with h1 h2 <;>
      (try rw [hdp] at h) <;>
      (try dsimp only at h ⊢) <;>
      first
        | exact ⟨rfl, rfl, rfl, rfl⟩
        | exact setWorkerOf_shared s rs.piston _
        | (rw [finishStart_not_err] at h; exact Bool.noConfusion h)
        | (split_ifs at h ⊢ with h4 <;>
            first
              | exact setWorkerOf_shared s rs.piston _
              | (rw [finishStart_not_err] at h; exact Bool.noConfusion h))
  · intro hearly
    unfold pistonStart
    by_cases hvp : (rs.piston = "piston1" ∨ rs.piston = "piston2")
    · rw [if_neg (not_not_intro hvp)]
      have hb : rs.time_on < 0 ∨ rs.time_off < 0 ∨ rs.cycles ≤ 0 := by
        rcases hearly with h | h
        · exact absurd hvp h
        · exact h
      rw [if_pos hb]
    · rw [if_pos hvp]

/-- Witness for the amended C3 theorem: an unknown-piston update request and
an invalid-parameter start request both leave the whole state untouched. -/
theorem rejected_requests_leave_store_and_dac_witness :
    (pistonUpdate seedSys ⟨"pistonX", none, none, none, none⟩).2 = seedSys ∧
    (pistonStart seedSys ⟨"piston1", 1, 1, 0, none⟩).2 = seedSys :=
  ⟨(rejected_requests_leave_store_and_dac seedSys ⟨"pistonX", none, none, none, none⟩
      ⟨"piston1", 1, 1, 0, none⟩).2.1 (by decide),
   (rejected_requests_leave_store_and_dac seedSys ⟨"pistonX", none, none, none, none⟩
      ⟨"piston1", 1, 1, 0, none⟩).2.2.2 (by decide)⟩

end Pneumatics
